import Mathlib

/-!
# Verification of the precious-metal tracker's metrics core (src/script.js)

Shallow embedding of the data model and the computations of `updateDisplay`,
`updatePriceSummary` and the series lookup guards.  JS numbers are embedded
as rationals (ℚ): every claim below is about which value is selected, which
guard fires and which algebraic combination is produced, not about binary
floating-point rounding.  Calendar dates are embedded as integer day numbers
(days since 1970-01-01); instants as integer minutes since the epoch.
-/

/-- Day number (days since 1970-01-01) of a proleptic-Gregorian civil date,
Howard Hinnant's `days_from_civil` algorithm. `m` is 1..12, `d` is 1..31. -/
def daysFromCivil (y : Int) (m d : Nat) : Int :=
  let yAdj : Int := if m ≤ 2 then y - 1 else y
  let era : Int := yAdj.fdiv 400
  let yoe : Nat := (yAdj - era * 400).toNat
  let mp : Nat := if m > 2 then m - 3 else m + 9
  let doy : Nat := (153 * mp + 2) / 5 + d - 1
  let doe : Nat := yoe * 365 + yoe / 4 - yoe / 100 + doy
  era * 146097 + (doe : Int) - 719468

/-- Civil date (year, month, day) of a day number, Hinnant's
`civil_from_days` algorithm (inverse of `daysFromCivil`). -/
def civilFromDays (z : Int) : Int × Nat × Nat :=
  let z' : Int := z + 719468
  let era : Int := z'.fdiv 146097
  let doe : Nat := (z' - era * 146097).toNat
  let yoe : Nat := (doe - doe / 1460 + doe / 36524 - doe / 146096) / 365
  let y : Int := (yoe : Int) + era * 400
  let doy : Nat := doe - (365 * yoe + yoe / 4 - yoe / 100)
  let mp : Nat := (5 * doy + 2) / 153
  let d : Nat := doy - (153 * mp + 2) / 5 + 1
  let m : Nat := if mp < 10 then mp + 3 else mp - 9
  (if m ≤ 2 then y + 1 else y, m, d)

/-- Zero-pad the decimal form of `n` on the left to at least `k` digits. -/
def padNum (k n : Nat) : String :=
  let s := toString n
  String.mk (List.replicate (k - s.length) '0') ++ s

/-- The `YYYY-MM-DD` text of day number `z`: the date part of JS
`Date.prototype.toISOString` (UTC fields, zero-padded, 4-digit year for
years 0..9999). -/
def dateString (z : Int) : String :=
  let c := civilFromDays z
  padNum 4 c.1.toNat ++ "-" ++ padNum 2 c.2.1 ++ "-" ++ padNum 2 c.2.2

/-- Embedding of the JS statement pair `const date = new Date(t);
date.setDate(date.getDate() + i)` under a host timezone `tz` (UTC offset in
minutes as a function of time; JS `getTimezoneOffset` is its negation).
`setDate(getDate() + i)` moves the *local* calendar date forward by exactly
`i` days keeping the local wall-clock time, so on timestamps it adds
`i * 1440` minutes to the local timestamp; the result is mapped back to an
instant by subtracting the offset in force at the shifted local timestamp
(ECMA-262 `UTC(t)`; exact for fixed-offset zones and away from the minute
of a transition). -/
def jsSetDateAdd (tz : Int → Int) (t : Int) (i : Nat) : Int :=
  let localT : Int := t + tz t
  let newLocal : Int := localT + (i : Int) * 1440
  newLocal - tz newLocal

/-- The chart label the loop body of `updateDisplay` emits for index `i`
(src/script.js lines 278-283): parse of the date-only string
`metalsData.start_date` yields UTC midnight of `startDay` (instant
`startDay * 1440` minutes), then `setDate(getDate() + i)` in local time,
then `toISOString().split('T')[0]` formats the UTC calendar day of the
resulting instant. -/
def chartDateLabel (tz : Int → Int) (startDay : Int) (i : Nat) : String :=
  dateString ((jsSetDateAdd tz (startDay * 1440) i).fdiv 1440)

/-- US Eastern time during 2021: UTC-5 (EST), except UTC-4 (EDT) between the
spring-forward transition (2021-03-14 02:00 EST = 07:00 UTC) and the
fall-back transition (2021-11-07 02:00 EDT = 06:00 UTC). A concrete host
timezone with a daylight-saving transition. -/
def usEastern2021 : Int → Int := fun t =>
  if t < daysFromCivil 2021 3 14 * 1440 + 7 * 60 then -300
  else if t < daysFromCivil 2021 11 7 * 1440 + 6 * 60 then -240
  else -300

/-! ## Metrics engine (src/script.js `updateDisplay`, lines 264-417, and
`updatePriceSummary`, lines 439-459) -/

/-- `const currentPrice = metalSeries[totalDays - 1]` (line 271). Prices are
rationals; `getD _ _ 0` is JS array indexing (all indices proved in bounds
where claims need it). -/
def currentPrice (series : List ℚ) : ℚ :=
  series.getD (series.length - 1) 0

/-- A `DerivedMetric` `(amountChange, percentChange)` from a current and a
reference price: `amountChange = currentPrice - pastPrice`,
`percentChange = pastPrice !== 0 ? (amountChange / pastPrice) * 100 : 0`
(lines 376-377; the same guard pattern appears at lines 400-402 and
442-443). -/
def derivedMetric (current ref : ℚ) : ℚ × ℚ :=
  let amount := current - ref
  (amount, if ref ≠ 0 then amount / ref * 100 else 0)

/-- Reference price for a look-back of `d` days: `const idx = totalDays -
period.days; const pastPrice = idx >= 0 ? metalSeries[idx] :
metalSeries[0]` (lines 373-375). The subtraction is over ℤ, as in JS. -/
def refPrice (series : List ℚ) (d : Nat) : ℚ :=
  let idx : Int := (series.length : Int) - d
  if 0 ≤ idx then series.getD idx.toNat 0 else series.getD 0 0

/-- The table row metric for one look-back period (lines 373-377). -/
def periodMetric (series : List ℚ) (d : Nat) : ℚ × ℚ :=
  derivedMetric (currentPrice series) (refPrice series d)

/-- The `periods` configuration list (lines 362-369). -/
def periods : List (String × Nat) :=
  [("Today", 1), ("30 Days", 30), ("6 Months", 180), ("1 Year", 365),
   ("5 Years", 365 * 5), ("20 Years", 365 * 20)]

/-- `periods.forEach(...)` (lines 372-391): one `(label, DerivedMetric)` row
per period, in input order. -/
def periodChanges (series : List ℚ) (ps : List (String × Nat)) :
    List (String × ℚ × ℚ) :=
  ps.map (fun p => (p.1, periodMetric series p.2))

/-- The chart window (lines 276-285): `startIdx = Math.max(0, totalDays -
lastNDays)`, then one `(index, price)` point for each `i` in
`[startIdx, totalDays)`. Nat subtraction `n - w` is exactly
`Math.max(0, n - w)`. The reference implementation instantiates
`w = lastNDays = 30`. -/
def chartWindow (series : List ℚ) (w : Nat) : List (Nat × ℚ) :=
  let n := series.length
  let startIdx := n - w
  (List.range' startIdx (n - startIdx)).map (fun i => (i, series.getD i 0))

/-- The trailing average of the 50-DMA row (lines 395-400): `lookback =
Math.min(50, totalDays)`, sum of `metalSeries[i]` for `i` in
`[totalDays - lookback, totalDays)` accumulated left to right, divided by
`lookback`. The reference implementation instantiates `lookback = 50`. -/
def movingAverage (series : List ℚ) (lookback : Nat) : ℚ :=
  let n := series.length
  let eff := min lookback n
  ((series.drop (n - eff)).foldl (· + ·) 0) / eff

/-- The 50-DMA row metric (lines 400-402): `diff = currentPrice - avg50`,
`pctDiff = avg50 !== 0 ? (diff / avg50) * 100 : 0`. -/
def movingAverageDeviation (series : List ℚ) (lookback : Nat) : ℚ × ℚ :=
  derivedMetric (currentPrice series) (movingAverage series lookback)

/-- `const prevPrice = totalDays >= 2 ? metalSeries[totalDays - 2] :
currentPrice` (line 358). -/
def prevPrice (series : List ℚ) : ℚ :=
  if 2 ≤ series.length then series.getD (series.length - 2) 0
  else currentPrice series

/-- The day-over-day summary metric computed by `updatePriceSummary`
(lines 442-443) on the arguments passed at line 359. -/
def dayChange (series : List ℚ) : ℚ × ℚ :=
  derivedMetric (currentPrice series) (prevPrice series)

/-- `amountCell.className = amountChange >= 0 ? 'positive' : 'negative'`
(line 383). -/
def amountCellClass (m : ℚ × ℚ) : String :=
  if 0 ≤ m.1 then "positive" else "negative"

/-- `percentCell.className = percentChange >= 0 ? 'positive' : 'negative'`
(line 386). -/
def percentCellClass (m : ℚ × ℚ) : String :=
  if 0 ≤ m.2 then "positive" else "negative"

/-! ## Series store and display update (lines 264-271, 14, 25-29) -/

/-- Outcome of resolving a metal name against the dataset, following the
guard structure of `updateDisplay` lines 265-267: `!metalsData ||
!metalsData.metals` is the uninitialized condition (the one the
DOMContentLoaded handler, lines 200-205, reports as a fatal setup error),
and a missing key under `metals` is the not-found condition. A present
value is always a JS array, which is truthy even when empty, so an empty
series is `found []`, never `notFound`. -/
inductive LookupResult where
  | uninitialized : LookupResult
  | notFound : LookupResult
  | found : List ℚ → LookupResult
deriving DecidableEq

/-- The dataset shape `window.METALS_DATA`: a start date (already parsed to
a day number) and a string-keyed mapping of metal name to price series,
embedded as an association list; the `metals` field is optional to model
`!metalsData.metals`. -/
structure MetalsData where
  start_date : Int
  metals : Option (List (String × List ℚ))

/-- The lookup performed by lines 265-267 of `updateDisplay`, with the two
early-return guards mapped to the two failure outcomes. -/
def lookup (md : Option MetalsData) (name : String) : LookupResult :=
  match md with
  | none => .uninitialized
  | some d =>
    match d.metals with
    | none => .uninitialized
    | some m =>
      match List.lookup name m with
      | none => .notFound
      | some s => .found s

/-- The DOM state `updateDisplay` writes: the chart data (replaced whole:
destroy-then-recreate, lines 288-351), the performance table rows
(`tbody.innerHTML = ''` then rebuilt, lines 370-416), and the price
summary (line 359 / `updatePriceSummary`). -/
structure DisplayState where
  chartData : Option (List (Nat × ℚ))
  tableRows : List (String × ℚ × ℚ)
  summary : Option (ℚ × ℚ × ℚ)
deriving DecidableEq

/-- The state produced by the body of `updateDisplay` once the guards have
passed: chart window of 30 days, the six period rows plus the 50 DMA row
(appended only when `totalDays > 0`, line 394), and the day-over-day
summary. -/
def renderedState (s : List ℚ) : DisplayState :=
  { chartData := some (chartWindow s 30)
    tableRows := periodChanges s periods ++
      (if 0 < s.length then [("50 DMA", movingAverageDeviation s 50)] else [])
    summary := some (currentPrice s, dayChange s) }

/-- `updateDisplay` as a state transformer: the guards at lines 265-267
return without touching the DOM (state unchanged); otherwise the display
is rebuilt from the resolved series. -/
def updateDisplay (md : Option MetalsData) (name : String)
    (st : DisplayState) : DisplayState :=
  match lookup md name with
  | .found s => renderedState s
  | _ => st

example : daysFromCivil 2021 1 1 = 18628 := by decide
example : civilFromDays 18628 = (2021, 1, 1) := by decide
example : dateString (daysFromCivil 2021 1 1 + 59) = "2021-03-01" := by decide
example : chartDateLabel (fun _ => 0) (daysFromCivil 2021 1 1) 59 = "2021-03-01" := by decide
example : chartDateLabel usEastern2021 (daysFromCivil 2021 1 1) 100 = "2021-04-10" := by decide
example : dateString (daysFromCivil 2021 1 1 + 100) = "2021-04-11" := by decide

/-! ## Helper lemmas -/

/-- When the look-back fits the history, the Int index test succeeds and the
reference index is the Nat `n - d`. -/
theorem refPrice_of_le (series : List ℚ) (d : Nat) (h : d ≤ series.length) :
    refPrice series d = series.getD (series.length - d) 0 := by
  simp only [refPrice]
  have h0 : (0 : Int) ≤ (series.length : Int) - d := by omega
  rw [if_pos h0]
  have h1 : ((series.length : Int) - d).toNat = series.length - d := by omega
  rw [h1]

/-- When the look-back exceeds the history, the Int index test fails and the
earliest price is used. -/
theorem refPrice_of_gt (series : List ℚ) (d : Nat) (h : series.length < d) :
    refPrice series d = series.getD 0 0 := by
  simp only [refPrice]
  have h0 : ¬ (0 : Int) ≤ (series.length : Int) - d := by omega
  rw [if_neg h0]

/-- `metalSeries[totalDays - 1]` is the last element of a non-empty series. -/
theorem currentPrice_eq_getLast (series : List ℚ) (hn : series ≠ []) :
    currentPrice series = series.getLast hn := by
  have hlen : 0 < series.length := List.length_pos.mpr hn
  have hb : series.length - 1 < series.length := by omega
  rw [currentPrice, List.getLast_eq_getElem,
    List.getD_eq_getElem series (0 : ℚ) hb]

/-- A `DerivedMetric` against the current price itself is the zero metric. -/
theorem derivedMetric_self (c : ℚ) : derivedMetric c c = (0, 0) := by
  simp [derivedMetric]

/-- The percent component against a zero reference is zero: the guard takes
the `: 0` branch and the division is never performed. -/
theorem derivedMetric_zero_ref (c : ℚ) : (derivedMetric c 0).2 = 0 := by
  simp [derivedMetric]

/-! ## Claims -/

/-- C1: for every non-empty price series of length `n` and every period with
`lookbackDays` `d ≥ 1`, the reference price is `series[n - d]` (an in-bounds
index) when `n - d ≥ 0`, and `series[0]` — the earliest available price —
when the look-back exceeds the available history; either way the period's
row is emitted (one row per period, in input order, never skipped and never
an error). -/
theorem periodChanges_fallback (series : List ℚ) (ps : List (String × Nat))
    (label : String) (d : Nat) (hn : series ≠ []) (hd : 1 ≤ d) :
    (d ≤ series.length →
      series.length - d < series.length ∧
      refPrice series d = series.getD (series.length - d) 0) ∧
    (series.length < d → refPrice series d = series.getD 0 0) ∧
    (periodChanges series ps).length = ps.length ∧
    ((label, d) ∈ ps →
      (label, periodMetric series d) ∈ periodChanges series ps) := by
  have hlen : 0 < series.length := List.length_pos.mpr hn
  refine ⟨fun h => ⟨by omega, refPrice_of_le series d h⟩,
    fun h => refPrice_of_gt series d h, ?_, fun h => ?_⟩
  · simp [periodChanges]
  · exact List.mem_map_of_mem (fun p => (p.1, periodMetric series p.2)) h

/-- Witness for C1 at the spec's own example shape: a series of length 4 and
the 30-day period of the configured list fall back to `series[0]`. -/
theorem periodChanges_fallback_witness :
    ([100, 102, 98, 105] : List ℚ) ≠ [] ∧ 1 ≤ 30 ∧
    ((30 ≤ ([100, 102, 98, 105] : List ℚ).length →
      ([100, 102, 98, 105] : List ℚ).length - 30 <
          ([100, 102, 98, 105] : List ℚ).length ∧
      refPrice [100, 102, 98, 105] 30 =
        ([100, 102, 98, 105] : List ℚ).getD
          (([100, 102, 98, 105] : List ℚ).length - 30) 0) ∧
    (([100, 102, 98, 105] : List ℚ).length < 30 →
      refPrice [100, 102, 98, 105] 30 =
        ([100, 102, 98, 105] : List ℚ).getD 0 0) ∧
    (periodChanges [100, 102, 98, 105] periods).length = periods.length ∧
    (("30 Days", 30) ∈ periods →
      ("30 Days", periodMetric [100, 102, 98, 105] 30) ∈
        periodChanges [100, 102, 98, 105] periods)) :=
  ⟨by decide, by decide,
    periodChanges_fallback [100, 102, 98, 105] periods "30 Days" 30
      (by decide) (by decide)⟩

/-- C2 counterexample: the emitted chart label is not independent of the
host timezone. Under the 2021 US Eastern timezone (which has a
daylight-saving transition on 2021-03-14), the label for index 100 from
`startDate = 2021-01-01` is `2021-04-10` — one day short of
`startDate + 100 days = 2021-04-11` — and differs from the label a UTC host
emits for the same input. -/
theorem chartDateLabel_dst_counterexample :
    chartDateLabel usEastern2021 (daysFromCivil 2021 1 1) 100 = "2021-04-10" ∧
    dateString (daysFromCivil 2021 1 1 + 100) = "2021-04-11" ∧
    chartDateLabel usEastern2021 (daysFromCivil 2021 1 1) 100 ≠
      chartDateLabel (fun _ => 0) (daysFromCivil 2021 1 1) 100 :=
  ⟨by decide, by decide, by decide⟩

/-- C2 amended: under any *fixed-offset* host timezone (in particular UTC)
the emitted label is exactly `startDate + i` calendar days, formatted as
zero-padded year-month-day; in particular for `startDate = 2021-01-01` and
`i = 59` the emitted date is `2021-03-01`. (Across a daylight-saving
transition the label can be off by one day; see the counterexample.) -/
theorem chartDateLabel_fixed_offset (c startDay : Int) (i : Nat) :
    chartDateLabel (fun _ => c) startDay i = dateString (startDay + i) ∧
    chartDateLabel (fun _ => 0) (daysFromCivil 2021 1 1) 59 = "2021-03-01" := by
  constructor
  · have h : jsSetDateAdd (fun _ => c) (startDay * 1440) i =
        (startDay + (i : Int)) * 1440 := by
      simp only [jsSetDateAdd]
      ring
    rw [chartDateLabel, h, Int.mul_fdiv_cancel _ (by norm_num)]
  · decide

/-- C3: the chart window has exactly `min n w` points, its indices are
`[max(0, n-w), n-1]` in ascending order, the last point carries
`series[n-1]`, and when `n < w` the window is the whole series (no padding,
no error). -/
theorem chartWindow_size (series : List ℚ) (w : Nat)
    (hn : 1 ≤ series.length) (hw : 1 ≤ w) :
    (chartWindow series w).length = min series.length w ∧
    (chartWindow series w).map Prod.fst =
      List.range' (series.length - w) (min series.length w) ∧
    List.Pairwise (fun p q => p.1 < q.1) (chartWindow series w) ∧
    (chartWindow series w).getLast? =
      some (series.length - 1, series.getD (series.length - 1) 0) ∧
    (series.length < w →
      chartWindow series w =
        (List.range series.length).map (fun i => (i, series.getD i 0))) := by
  have hmin : series.length - (series.length - w) = min series.length w := by
    omega
  refine ⟨?_, ?_, ?_, ?_, ?_⟩
  · simp [chartWindow, hmin]
  · simp only [chartWindow, hmin, List.map_map]
    rw [show (Prod.fst ∘ fun i : Nat => (i, series.getD i 0)) = id from rfl,
      List.map_id]
  · unfold chartWindow
    refine List.pairwise_map.mpr ?_
    exact List.pairwise_lt_range' _ _
  · obtain ⟨k, hk⟩ : ∃ k, min series.length w = k + 1 :=
      ⟨min series.length w - 1, by omega⟩
    have hidx : series.length - w + 1 * k = series.length - 1 := by omega
    simp only [chartWindow, hmin, hk, List.range'_concat, List.map_append,
      List.map_cons, List.map_nil, List.getLast?_concat, hidx]
  · intro h
    have h0 : series.length - w = 0 := by omega
    have h2 : min series.length w = series.length := by omega
    simp [chartWindow, hmin, h0, h2, List.range_eq_range']

/-- Witness for C3: a series of length 3 with window size 5 (window is the
whole series). -/
theorem chartWindow_size_witness :
    1 ≤ ([4, 5, 6] : List ℚ).length ∧ 1 ≤ 5 ∧
    ((chartWindow [4, 5, 6] 5).length = min ([4, 5, 6] : List ℚ).length 5 ∧
    (chartWindow [4, 5, 6] 5).map Prod.fst =
      List.range' (([4, 5, 6] : List ℚ).length - 5)
        (min ([4, 5, 6] : List ℚ).length 5) ∧
    List.Pairwise (fun p q => p.1 < q.1) (chartWindow [4, 5, 6] 5) ∧
    (chartWindow [4, 5, 6] 5).getLast? =
      some (([4, 5, 6] : List ℚ).length - 1,
        ([4, 5, 6] : List ℚ).getD (([4, 5, 6] : List ℚ).length - 1) 0) ∧
    (([4, 5, 6] : List ℚ).length < 5 →
      chartWindow [4, 5, 6] 5 =
        (List.range ([4, 5, 6] : List ℚ).length).map
          (fun i => (i, ([4, 5, 6] : List ℚ).getD i 0)))) :=
  ⟨by decide, by decide, chartWindow_size [4, 5, 6] 5 (by decide) (by decide)⟩

/-- C4: for every non-empty series and positive lookback, the 50-DMA row
averages exactly the most recent `min(lookback, n)` values (arithmetic mean
of the length-`min(lookback, n)` suffix), `amountChange` is the last price
minus that average, and `percentChange` is `0` when the average is `0` and
`amountChange / average * 100` otherwise. -/
theorem movingAverageDeviation_min (series : List ℚ) (lookback : Nat)
    (hn : series ≠ []) (hl : 1 ≤ lookback) :
    (series.drop (series.length - min lookback series.length)).length =
      min lookback series.length ∧
    movingAverage series lookback =
      (series.drop (series.length - min lookback series.length)).sum /
        ((min lookback series.length : Nat) : ℚ) ∧
    (movingAverageDeviation series lookback).1 =
      series.getLast hn - movingAverage series lookback ∧
    (movingAverage series lookback = 0 →
      (movingAverageDeviation series lookback).2 = 0) ∧
    (movingAverage series lookback ≠ 0 →
      (movingAverageDeviation series lookback).2 =
        (movingAverageDeviation series lookback).1 /
          movingAverage series lookback * 100) := by
  refine ⟨?_, ?_, ?_, fun h => ?_, fun h => ?_⟩
  · rw [List.length_drop]
    omega
  · simp only [movingAverage, List.sum_eq_foldl]
  · rw [movingAverageDeviation, derivedMetric,
      currentPrice_eq_getLast series hn]
  · simp [movingAverageDeviation, derivedMetric, h]
  · simp [movingAverageDeviation, derivedMetric, h]

/-- Witness for C4 at the spec's edge case: a series of length 5 with
`lookback = 50` averages all 5 values (`min 50 5 = 5`). -/
theorem movingAverageDeviation_min_witness :
    ([1, 2, 3, 4, 5] : List ℚ) ≠ [] ∧ 1 ≤ 50 ∧
    ((([1, 2, 3, 4, 5] : List ℚ).drop
        (([1, 2, 3, 4, 5] : List ℚ).length -
          min 50 ([1, 2, 3, 4, 5] : List ℚ).length)).length =
      min 50 ([1, 2, 3, 4, 5] : List ℚ).length ∧
    movingAverage [1, 2, 3, 4, 5] 50 =
      (([1, 2, 3, 4, 5] : List ℚ).drop
        (([1, 2, 3, 4, 5] : List ℚ).length -
          min 50 ([1, 2, 3, 4, 5] : List ℚ).length)).sum /
        ((min 50 ([1, 2, 3, 4, 5] : List ℚ).length : Nat) : ℚ) ∧
    (movingAverageDeviation [1, 2, 3, 4, 5] 50).1 =
      ([1, 2, 3, 4, 5] : List ℚ).getLast (by decide) -
        movingAverage [1, 2, 3, 4, 5] 50 ∧
    (movingAverage [1, 2, 3, 4, 5] 50 = 0 →
      (movingAverageDeviation [1, 2, 3, 4, 5] 50).2 = 0) ∧
    (movingAverage [1, 2, 3, 4, 5] 50 ≠ 0 →
      (movingAverageDeviation [1, 2, 3, 4, 5] 50).2 =
        (movingAverageDeviation [1, 2, 3, 4, 5] 50).1 /
          movingAverage [1, 2, 3, 4, 5] 50 * 100)) :=
  ⟨by decide, by decide,
    movingAverageDeviation_min [1, 2, 3, 4, 5] 50 (by decide) (by decide)⟩

/-- C5: the day-over-day summary uses `current = series[n-1]` and
`reference = series[n-2]` when `n ≥ 2`, and `reference = current` when
`n = 1`, so a one-element series yields `amountChange = 0` and
`percentChange = 0` rather than an error. -/
theorem dayChange_edge (series : List ℚ) (hn : series ≠ []) :
    (2 ≤ series.length →
      dayChange series =
        derivedMetric (currentPrice series)
          (series.getD (series.length - 2) 0)) ∧
    (series.length = 1 → dayChange series = (0, 0)) := by
  constructor
  · intro h
    rw [dayChange, prevPrice, if_pos h]
  · intro h
    have h2 : ¬ 2 ≤ series.length := by omega
    rw [dayChange, prevPrice, if_neg h2, derivedMetric_self]

/-- Witness for C5: the length-1 series `[7]` yields the zero metric. -/
theorem dayChange_edge_witness :
    ([7] : List ℚ) ≠ [] ∧ ([7] : List ℚ).length = 1 ∧
    dayChange [7] = (0, 0) :=
  ⟨by decide, by decide, (dayChange_edge [7] (by decide)).2 (by decide)⟩

/-- C6: in every percent computation (period rows, 50-DMA row, day-over-day
summary) a zero reference price or zero average yields `percentChange = 0`:
the `!== 0` guard takes the `: 0` branch and no division is performed, for
any current price. -/
theorem percent_zero_guard (series : List ℚ) (d lookback : Nat)
    (current : ℚ) :
    (derivedMetric current 0).2 = 0 ∧
    (refPrice series d = 0 → (periodMetric series d).2 = 0) ∧
    (movingAverage series lookback = 0 →
      (movingAverageDeviation series lookback).2 = 0) ∧
    (prevPrice series = 0 → (dayChange series).2 = 0) := by
  refine ⟨derivedMetric_zero_ref current, fun h => ?_, fun h => ?_,
    fun h => ?_⟩
  · rw [periodMetric, h]
    exact derivedMetric_zero_ref _
  · rw [movingAverageDeviation, h]
    exact derivedMetric_zero_ref _
  · rw [dayChange, h]
    exact derivedMetric_zero_ref _

/-- Witness for C6: the all-zero series `[0]` makes every reference zero and
every percent exactly zero. -/
theorem percent_zero_guard_witness :
    refPrice [0] 1 = 0 ∧ movingAverage [0] 1 = 0 ∧ prevPrice [0] = 0 ∧
    (derivedMetric 5 0).2 = 0 ∧ (periodMetric [0] 1).2 = 0 ∧
    (movingAverageDeviation [0] 1).2 = 0 ∧ (dayChange [0]).2 = 0 := by
  have h1 : refPrice [0] 1 = 0 := rfl
  have h2 : movingAverage [0] 1 = 0 := by
    simp [movingAverage]
  have h3 : prevPrice [0] = 0 := rfl
  exact ⟨h1, h2, h3, (percent_zero_guard [0] 1 1 5).1,
    (percent_zero_guard [0] 1 1 5).2.1 h1,
    (percent_zero_guard [0] 1 1 5).2.2.1 h2,
    (percent_zero_guard [0] 1 1 5).2.2.2 h3⟩

/-- C7: an unset dataset (or a dataset without a `metals` table) resolves to
the `uninitialized` signal, an unknown metal name resolves to `notFound`, a
present key resolves to `found` with its series, and the three outcomes are
pairwise distinct — in particular a successfully returned *empty* series is
`found []`, which is not `notFound` (a JS array is truthy even when empty)
and not `uninitialized`. -/
theorem lookup_taxonomy (metals : List (String × List ℚ)) (sd : Int)
    (name : String) :
    lookup none name = LookupResult.uninitialized ∧
    lookup (some { start_date := sd, metals := none }) name =
      LookupResult.uninitialized ∧
    (List.lookup name metals = none →
      lookup (some { start_date := sd, metals := some metals }) name =
        LookupResult.notFound) ∧
    (∀ s, List.lookup name metals = some s →
      lookup (some { start_date := sd, metals := some metals }) name =
        LookupResult.found s) ∧
    (LookupResult.uninitialized ≠ LookupResult.notFound) ∧
    (∀ s, LookupResult.uninitialized ≠ LookupResult.found s) ∧
    (∀ s, LookupResult.notFound ≠ LookupResult.found s) ∧
    lookup (some { start_date := sd, metals := some [(name, [])] }) name =
      LookupResult.found [] := by
  refine ⟨rfl, rfl, fun h => ?_, fun s h => ?_, by simp, fun s => by simp,
    fun s => by simp, ?_⟩
  · simp [lookup, h]
  · simp [lookup, h]
  · simp [lookup, List.lookup]

/-- Witness for C7: a dataset holding only gold, queried for silver, yields
`notFound`. -/
theorem lookup_taxonomy_witness :
    List.lookup "silver" [("gold", ([100] : List ℚ))] = none ∧
    lookup (some { start_date := 0, metals := some [("gold", [100])] })
      "silver" = LookupResult.notFound := by
  have h : List.lookup "silver" [("gold", ([100] : List ℚ))] = none := by
    simp [List.lookup]
  exact ⟨h, (lookup_taxonomy [("gold", [100])] 0 "silver").2.2.1 h⟩

/-- C8: when the selected name matches no dataset key, `updateDisplay`
returns through the `if (!metalSeries) return` guard: it is a total
function that leaves the chart, table and summary state unchanged, and a
later query (with any name, in particular a valid one) behaves exactly as
it would have on the untouched state. -/
theorem updateDisplay_unknown_atomic (md : Option MetalsData) (name : String)
    (st : DisplayState) (h : lookup md name = LookupResult.notFound) :
    updateDisplay md name st = st ∧
    (∀ name2, updateDisplay md name2 (updateDisplay md name st) =
      updateDisplay md name2 st) ∧
    (∀ name2 s2, lookup md name2 = LookupResult.found s2 →
      updateDisplay md name2 (updateDisplay md name st) =
        renderedState s2) := by
  have h1 : updateDisplay md name st = st := by
    rw [updateDisplay, h]
  refine ⟨h1, fun name2 => by rw [h1], fun name2 s2 h2 => ?_⟩
  rw [h1, updateDisplay, h2]

/-- Witness for C8: querying silver against a gold-only dataset leaves the
display untouched, and a later gold query still renders gold. -/
theorem updateDisplay_unknown_atomic_witness :
    lookup (some { start_date := 0, metals := some [("gold", [100])] })
      "silver" = LookupResult.notFound ∧
    (updateDisplay (some { start_date := 0, metals := some [("gold", [100])] })
      "silver" { chartData := none, tableRows := [], summary := none } =
      { chartData := none, tableRows := [], summary := none } ∧
    (∀ name2, updateDisplay
        (some { start_date := 0, metals := some [("gold", [100])] }) name2
        (updateDisplay
          (some { start_date := 0, metals := some [("gold", [100])] })
          "silver" { chartData := none, tableRows := [], summary := none }) =
      updateDisplay
        (some { start_date := 0, metals := some [("gold", [100])] }) name2
        { chartData := none, tableRows := [], summary := none }) ∧
    (∀ name2 s2, lookup
        (some { start_date := 0, metals := some [("gold", [100])] }) name2 =
          LookupResult.found s2 →
      updateDisplay
        (some { start_date := 0, metals := some [("gold", [100])] }) name2
        (updateDisplay
          (some { start_date := 0, metals := some [("gold", [100])] })
          "silver" { chartData := none, tableRows := [], summary := none }) =
        renderedState s2)) := by
  have h : lookup (some { start_date := 0, metals := some [("gold", [100])] })
      "silver" = LookupResult.notFound := by
    simp [lookup, List.lookup]
  exact ⟨h, updateDisplay_unknown_atomic
    (some { start_date := 0, metals := some [("gold", [100])] }) "silver"
    { chartData := none, tableRows := [], summary := none } h⟩

/-- C9 (implicit): for every non-empty series the `Today` row
(`lookbackDays = 1`) uses reference index `n - 1` — the current price
itself — so its metric is exactly `(0, 0)`; it therefore differs from the
`dayChange` summary (which compares against `series[n-2]`) whenever
`series[n-1] ≠ series[n-2]`. -/
theorem today_row_zero (series : List ℚ) (hn : series ≠ []) :
    refPrice series 1 = series.getD (series.length - 1) 0 ∧
    periodMetric series 1 = (0, 0) ∧
    (periodChanges series periods).head? = some ("Today", (0, 0)) ∧
    (2 ≤ series.length →
      series.getD (series.length - 1) 0 ≠ series.getD (series.length - 2) 0 →
      (dayChange series).1 ≠ 0) := by
  have hlen : 0 < series.length := List.length_pos.mpr hn
  have href : refPrice series 1 = series.getD (series.length - 1) 0 :=
    refPrice_of_le series 1 (by omega)
  have hpm : periodMetric series 1 = (0, 0) := by
    rw [periodMetric, href]
    exact derivedMetric_self _
  refine ⟨href, hpm, ?_, fun h2 hne => ?_⟩
  · simp [periodChanges, periods, hpm]
  · rw [dayChange, derivedMetric, currentPrice, prevPrice, if_pos h2]
    exact sub_ne_zero.mpr hne

/-- Witness for C9: for the series `[100, 105]` the Today row is `(0, 0)`
while the day-change amount is nonzero. -/
theorem today_row_zero_witness :
    ([100, 105] : List ℚ) ≠ [] ∧ 2 ≤ ([100, 105] : List ℚ).length ∧
    ([100, 105] : List ℚ).getD (([100, 105] : List ℚ).length - 1) 0 ≠
      ([100, 105] : List ℚ).getD (([100, 105] : List ℚ).length - 2) 0 ∧
    periodMetric [100, 105] 1 = (0, 0) ∧ (dayChange [100, 105]).1 ≠ 0 := by
  have hne : ([100, 105] : List ℚ).getD (([100, 105] : List ℚ).length - 1) 0 ≠
      ([100, 105] : List ℚ).getD (([100, 105] : List ℚ).length - 2) 0 := by
    norm_num
  exact ⟨by decide, by decide, hne,
    (today_row_zero [100, 105] (by decide)).2.1,
    (today_row_zero [100, 105] (by decide)).2.2.2 (by decide) hne⟩

/-- C10: the visual class attached to the amount cell (resp. percent cell)
is `"positive"` exactly when the value is `≥ 0`, and `"negative"` exactly
when it is `< 0`; an exactly-zero change renders as `"positive"` — there is
no third, neutral class. -/
theorem sign_class_positive (m : ℚ × ℚ) :
    (amountCellClass m = "positive" ↔ 0 ≤ m.1) ∧
    (amountCellClass m = "negative" ↔ m.1 < 0) ∧
    (percentCellClass m = "positive" ↔ 0 ≤ m.2) ∧
    amountCellClass (0, m.2) = "positive" ∧
    percentCellClass (m.1, 0) = "positive" ∧
    (amountCellClass m = "positive" ∨ amountCellClass m = "negative") := by
  have hne : ("negative" : String) ≠ "positive" := by decide
  have hne2 : ("positive" : String) ≠ "negative" := by decide
  refine ⟨?_, ?_, ?_, ?_, ?_, ?_⟩
  · rw [amountCellClass]
    split_ifs with h
    · simp [h]
    · simp [h, hne]
  · rw [amountCellClass]
    split_ifs with h
    · simp [hne2]
      linarith
    · simp
      linarith [not_le.mp h]
  · rw [percentCellClass]
    split_ifs with h
    · simp [h]
    · simp [h, hne]
  · simp [amountCellClass]
  · simp [percentCellClass]
  · rw [amountCellClass]
    split_ifs
    · exact Or.inl rfl
    · exact Or.inr rfl
